import Mathlib

/-!
# Verification of the NeuronSearchLab SDK event-delivery pipeline

Shallow embedding of the event-delivery pipeline of `src/index.ts`
(class `NeuronSDK`): the buffered-event queue (`enqueueEvent`,
`trimBufferIfNeeded`), the drain loop (`flushEvents`), the transmission
strategy with the sticky array-batching downgrade (`sendBatch`,
`sendIndividually`), and the caller-facing submission boundary
(`trackEvent`).

Modelling choices, stated once here:

* The generic HTTP executor (`request`, with its internal per-status retries,
  timeouts and backoff) is an external collaborator of the pipeline.  Each
  call of `postEvents` is modelled as consuming one outcome from a network
  oracle `net : Nat -> SendOutcome`, indexed by a running request counter.
  The outcome classifies the executor's terminal result the way the pipeline
  observes it: success with a parsed body (abstracted to a `Nat`), an
  HTTP-level failure (`SDKHttpError`), a timeout (`SDKTimeoutError`) or any
  other network failure.
* A queued entry's `resolve`/`reject` callback pair is identified by a
  `callbackId`; every invocation of either callback is recorded, in order, in
  a `Settle` list, so "invoked exactly once" becomes a statement about that
  list.
* JS runs the pipeline single-threaded with suspension only at awaits and
  timers, so the state-passing functions below execute atomically between
  suspension points.  The in-flight flush promise is modelled by an
  identifier stored in `pendingFlushPromise`; timer delays carry no
  observable value for any property below, so the armed timer is a `Bool`.
* `enqueueEvent` ends by either triggering an immediate flush (buffer length
  reached `maxBatchSize`) or arming the collate-window timer; the decision is
  returned as a `FlushTrigger` value and the triggered flush is run by the
  caller of the model, since the enqueue itself returns before that flush
  settles.
* Numbers that are JS doubles in the source (`maxBatchSize`, counters) are
  modelled as `Nat`; the only subtraction the pipeline performs
  (`overflow = length + incoming - maxBufferedEvents`) is guarded by
  `overflow > 0`, which agrees with truncated `Nat` subtraction.
-/

namespace NSL

/-- Terminal failure classes of one `postEvents` call, i.e. of the HTTP
executor after its own internal retries: `http` is an `SDKHttpError`
(the server answered with a non-ok status), `timeout` an `SDKTimeoutError`,
`network` any other rejection of the transport. -/
inductive SendError where
  | http (status : Nat)
  | timeout
  | network
deriving DecidableEq

/-- The `err instanceof SDKHttpError` test used by `sendBatch`'s catch
clause. -/
def SendError.isHttp : SendError → Bool
  | .http _ => true
  | _ => false

/-- Outcome of one `postEvents` call; a successful response body is
abstracted to a `Nat`. -/
inductive SendOutcome where
  | ok (response : Nat)
  | fail (e : SendError)
deriving DecidableEq

/-- A buffered event entry (source type `BufferedEvent<T>`): the opaque
payload, the identity of the caller's `resolve`/`reject` promise-callback
pair, the per-entry `retries` field (never incremented by the source) and
the enqueue timestamp. -/
structure BufferedEvent (α : Type) where
  payload : α
  callbackId : Nat
  retries : Nat
  enqueueTime : Nat
deriving DecidableEq

/-- Errors delivered to a queued entry's `reject` callback, and the
synchronous validation error of `trackEvent`. -/
inductive SdkError where
  | bufferExceeded
  | maxRetries
  | send (e : SendError)
deriving DecidableEq

/-- One invocation of a queued entry's completion callbacks.  `resolve`
carries the response `sendBatch` returned for the entry's batch (`none`
models JS `undefined`, the value `sendIndividually` returns for an empty
batch). -/
inductive Settle where
  | resolve (callbackId : Nat) (response : Option Nat)
  | reject (callbackId : Nat) (err : SdkError)
deriving DecidableEq

/-- Which callback pair a settle touches. -/
def Settle.callbackOf : Settle → Nat
  | .resolve cid _ => cid
  | .reject cid _ => cid

/-- Returns `true` exactly for `resolve` invocations. -/
def Settle.isResolve : Settle → Bool
  | .resolve _ _ => true
  | .reject _ _ => false

/-- Wire shape of one `postEvents` request: `arr` is the JSON array payload
of a whole batch, `single` the JSON object of one event. -/
inductive Request (α : Type) where
  | arr (payloads : List α)
  | single (payload : α)
deriving DecidableEq

/-- Returns `true` exactly for array-shaped requests. -/
def Request.isArr : Request α → Bool
  | .arr _ => true
  | .single _ => false

/-- The mutable instance state of `NeuronSDK` that the event pipeline
touches, plus the configuration fields it reads.  `pendingFlushPromise`
holds the identifier of the shared in-flight flush promise;
`nextCallbackId` / `nextPromiseId` mint fresh identities for promise
objects the way the JS runtime does.  `flushTimer` is `true` iff a flush
timer is armed. -/
structure SDKState (α : Type) where
  eventBuffer : List (BufferedEvent α)
  maxBatchSize : Nat
  maxBufferedEvents : Nat
  maxEventRetries : Nat
  disableArrayBatching : Bool
  arrayBatchingRejected : Bool
  flushRetryCount : Nat
  isFlushing : Bool
  pendingFlushPromise : Option Nat
  flushTimer : Bool
  nextCallbackId : Nat
  nextPromiseId : Nat
  propagateRecommendationRequestId : Bool
  lastRecommendationRequestId : Option String
deriving DecidableEq

/-- A fresh instance with the given `maxBatchSize`, `maxBufferedEvents` and
`maxEventRetries` (constructor defaults are 200, 5000 and 5) and all mutable
state at its initial value. -/
def initState (α : Type) (mbs mbe mer : Nat) (dab : Bool) : SDKState α :=
  { eventBuffer := []
    maxBatchSize := mbs
    maxBufferedEvents := mbe
    maxEventRetries := mer
    disableArrayBatching := dab
    arrayBatchingRejected := false
    flushRetryCount := 0
    isFlushing := false
    pendingFlushPromise := none
    flushTimer := false
    nextCallbackId := 0
    nextPromiseId := 0
    propagateRecommendationRequestId := true
    lastRecommendationRequestId := none }

/-- Source `trimBufferIfNeeded(incomingCount = 0)`: when
`eventBuffer.length + incomingCount` exceeds `maxBufferedEvents`, splice the
overflow off the front of the buffer and reject each dropped entry's
future with the buffer-exceeded error.  Returns the new state and
the callback invocations made, in order. -/
def trimBufferIfNeeded (st : SDKState α) (incomingCount : Nat) :
    SDKState α × List Settle :=
  let overflow := st.eventBuffer.length + incomingCount - st.maxBufferedEvents
  if 0 < overflow then
    let dropped := st.eventBuffer.take overflow
    ({ st with eventBuffer := st.eventBuffer.drop overflow },
      dropped.map fun e => Settle.reject e.callbackId SdkError.bufferExceeded)
  else
    (st, [])

/-- What `enqueueEvent` does after appending: `immediate` models
`void this.flushEvents()` (buffer reached `maxBatchSize`), `scheduled`
models `this.scheduleFlush()` arming the collate-window timer. -/
inductive FlushTrigger where
  | immediate
  | scheduled
deriving DecidableEq

/-- Result of `enqueueEvent`: the new state, the callback invocations made
by the capacity trim, the `callbackId` of the promise returned to the
caller, and the flush trigger taken. -/
structure EnqueueRes (α : Type) where
  st : SDKState α
  settles : List Settle
  callbackId : Nat
  trigger : FlushTrigger
deriving DecidableEq

/-- Source `enqueueEvent(payload)`: trim with `incomingCount = 1`, push the
new entry (with `retries: 0` and the current time), then either flush
immediately (length reached `maxBatchSize`) or schedule the collate-window
flush.  `scheduleFlush()` with no delay leaves an armed timer alone, so in
the `Bool` timer model it sets the timer to `true` either way. -/
def enqueueEvent (st : SDKState α) (payload : α) (now : Nat) : EnqueueRes α :=
  let trimmed := trimBufferIfNeeded st 1
  let st1 := trimmed.1
  let cid := st1.nextCallbackId
  let entry : BufferedEvent α :=
    { payload := payload, callbackId := cid, retries := 0, enqueueTime := now }
  let st2 := { st1 with
    eventBuffer := st1.eventBuffer ++ [entry]
    nextCallbackId := cid + 1 }
  if st2.maxBatchSize ≤ st2.eventBuffer.length then
    { st := st2, settles := trimmed.2, callbackId := cid,
      trigger := FlushTrigger.immediate }
  else
    { st := { st2 with flushTimer := true }, settles := trimmed.2,
      callbackId := cid, trigger := FlushTrigger.scheduled }

deriving instance DecidableEq for Except

/-- Result of `sendIndividually`: the value or error it completes with, the
advanced request counter, and the requests it issued, in order. -/
structure PostRes (α : Type) where
  result : Except SendError (Option Nat)
  netIdx : Nat
  requests : List (Request α)
deriving DecidableEq

/-- Source `sendIndividually(batch)`: post each entry's payload as its own
single-object request, in batch order, returning the last response;
`lastResponse` starts out `undefined` (`none`).  The first failing request
aborts the loop and the error propagates; entries after it are not sent. -/
def sendIndividually (net : Nat → SendOutcome) :
    List (BufferedEvent α) → Nat → Option Nat → PostRes α
  | [], i, last => { result := Except.ok last, netIdx := i, requests := [] }
  | e :: rest, i, _last =>
    match net i with
    | SendOutcome.ok r =>
      let tail := sendIndividually net rest (i + 1) (some r)
      { result := tail.result, netIdx := tail.netIdx,
        requests := Request.single e.payload :: tail.requests }
    | SendOutcome.fail err =>
      { result := Except.error err, netIdx := i + 1,
        requests := [Request.single e.payload] }

/-- Result of `sendBatch`: additionally carries the state, because the
catch clause may set the sticky `arrayBatchingRejected` flag. -/
structure SendRes (α : Type) where
  result : Except SendError (Option Nat)
  st : SDKState α
  netIdx : Nat
  requests : List (Request α)
deriving DecidableEq

/-- Source `sendBatch(batch)`: send as one array-shaped request iff the
batch has more than one entry, array batching is not disabled by
configuration, and the instance has not downgraded.  If the array request
fails with an `SDKHttpError` while the downgrade flag is still unset, set
the flag (the one-way downgrade) and retry the very same batch via
`sendIndividually`; every other failure propagates unchanged.  Outside
array mode the batch goes straight to `sendIndividually`. -/
def sendBatch (st : SDKState α) (net : Nat → SendOutcome) (i : Nat)
    (batch : List (BufferedEvent α)) : SendRes α :=
  let shouldSendArray :=
    decide (1 < batch.length) && !st.disableArrayBatching &&
      !st.arrayBatchingRejected
  if shouldSendArray then
    match net i with
    | SendOutcome.ok r =>
      { result := Except.ok (some r), st := st, netIdx := i + 1,
        requests := [Request.arr (batch.map fun e => e.payload)] }
    | SendOutcome.fail err =>
      if !st.arrayBatchingRejected && err.isHttp then
        let st' := { st with arrayBatchingRejected := true }
        let tail := sendIndividually net batch (i + 1) none
        { result := tail.result, st := st', netIdx := tail.netIdx,
          requests := Request.arr (batch.map fun e => e.payload) ::
            tail.requests }
      else
        { result := Except.error err, st := st, netIdx := i + 1,
          requests := [Request.arr (batch.map fun e => e.payload)] }
  else
    let tail := sendIndividually net batch i none
    { result := tail.result, st := st, netIdx := tail.netIdx,
      requests := tail.requests }

/-- Result of the drain loop and of `flushEvents`: the state after the
call, the callback invocations made (in order), the requests issued
(in order) and the advanced request counter. -/
structure DrainRes (α : Type) where
  st : SDKState α
  settles : List Settle
  requests : List (Request α)
  netIdx : Nat
deriving DecidableEq

/-- The `while (this.eventBuffer.length > 0)` loop inside `flushEvents`.
Each iteration splices the first `maxBatchSize` entries off the buffer and
sends them via `sendBatch`.  On success every entry of the batch is
resolved with the batch's response and `flushRetryCount` resets to zero; on
failure the batch is concatenated back onto the front of the buffer, the
capacity trim re-runs, `flushRetryCount` increments, and either a backoff
re-flush is scheduled (`flushRetryCount` still within `maxEventRetries`) or
every batch entry is rejected with the max-retries error; either way the
loop breaks.  The loop is fueled for termination: `flushEvents` supplies
`eventBuffer.length` fuel, enough to drain whenever `maxBatchSize > 0`
(each successful iteration shortens the buffer); the source loops forever
when `maxBatchSize = 0` with a non-empty buffer, a case no property below
touches. -/
def drainLoop (net : Nat → SendOutcome) :
    Nat → SDKState α → Nat → DrainRes α
  | 0, st, i => { st := st, settles := [], requests := [], netIdx := i }
  | fuel + 1, st, i =>
    if st.eventBuffer.isEmpty then
      { st := st, settles := [], requests := [], netIdx := i }
    else
      let batch := st.eventBuffer.take st.maxBatchSize
      let st1 := { st with eventBuffer := st.eventBuffer.drop st.maxBatchSize }
      let sres := sendBatch st1 net i batch
      match sres.result with
      | Except.ok r =>
        let st2 := { sres.st with flushRetryCount := 0 }
        let resolves := batch.map fun e => Settle.resolve e.callbackId r
        let tail := drainLoop net fuel st2 sres.netIdx
        { st := tail.st, settles := resolves ++ tail.settles,
          requests := sres.requests ++ tail.requests, netIdx := tail.netIdx }
      | Except.error _ =>
        let st2 : SDKState α :=
          { sres.st with eventBuffer := batch ++ sres.st.eventBuffer }
        let trimmed := trimBufferIfNeeded st2 0
        let st3 : SDKState α :=
          { trimmed.1 with flushRetryCount := trimmed.1.flushRetryCount + 1 }
        if st3.flushRetryCount ≤ st3.maxEventRetries then
          { st := { st3 with flushTimer := true }, settles := trimmed.2,
            requests := sres.requests, netIdx := sres.netIdx }
        else
          { st := st3,
            settles := trimmed.2 ++
              (batch.map fun e => Settle.reject e.callbackId SdkError.maxRetries),
            requests := sres.requests, netIdx := sres.netIdx }

/-- The future `flushEvents` hands back to its caller: the shared pending
promise of an already-in-progress flush, an immediately-resolved promise
(`Promise.resolve()`, queue empty and nothing in flight), or the freshly
created promise of the drain this call started. -/
inductive FlushReturn where
  | inflight (pid : Nat)
  | resolved
  | fresh (pid : Nat)
deriving DecidableEq

/-- Result of a `flushEvents` call. -/
structure FlushRes (α : Type) where
  st : SDKState α
  settles : List Settle
  requests : List (Request α)
  netIdx : Nat
  ret : FlushReturn
deriving DecidableEq

/-- Source `flushEvents()`: clear the armed timer; if a flush is already in
progress or the buffer is empty, return `pendingFlushPromise ?? Promise.resolve()`
without touching anything else.  Otherwise set `isFlushing`, publish a fresh
pending promise, run the drain loop, and finally clear `isFlushing` and
`pendingFlushPromise` (the `.finally` handler). -/
def flushEvents (st : SDKState α) (net : Nat → SendOutcome) (i : Nat) :
    FlushRes α :=
  let st0 := { st with flushTimer := false }
  if st0.isFlushing || st0.eventBuffer.isEmpty then
    { st := st0, settles := [], requests := [], netIdx := i,
      ret := match st0.pendingFlushPromise with
        | some pid => FlushReturn.inflight pid
        | none => FlushReturn.resolved }
  else
    let pid := st0.nextPromiseId
    let st1 := { st0 with
      isFlushing := true
      pendingFlushPromise := some pid
      nextPromiseId := pid + 1 }
    let drained := drainLoop net st1.eventBuffer.length st1 i
    { st := { drained.st with isFlushing := false, pendingFlushPromise := none },
      settles := drained.settles, requests := drained.requests,
      netIdx := drained.netIdx, ret := FlushReturn.fresh pid }

/-! ## The caller-facing submission boundary (`trackEvent`) -/

/-- A JS runtime value, as far as `trackEvent`'s `typeof` checks inspect
it. -/
inductive JSValue where
  | num (n : Int)
  | str (s : String)
  | boolean (b : Bool)
  | undef
deriving DecidableEq

/-- The `typeof v` test for "number". -/
def JSValue.isNumber : JSValue → Bool
  | .num _ => true
  | _ => false

/-- The `typeof v` test for "string". -/
def JSValue.isString : JSValue → Bool
  | .str _ => true
  | _ => false

/-- The fields of a `TrackEventPayload` record that `trackEvent` reads
(`undef` models an absent key). -/
structure TrackEventInput where
  eventId : JSValue
  userId : JSValue
  itemId : JSValue
  requestId : JSValue
  request_id : JSValue
deriving DecidableEq

/-- The payload `trackEvent` builds and enqueues: the caller's fields,
the (possibly overridden) `request_id`, and the stamped `client_ts`. -/
structure EventPayload where
  eventId : JSValue
  userId : JSValue
  itemId : JSValue
  requestId : JSValue
  request_id : JSValue
  client_ts : String
deriving DecidableEq

/-- The exact message of `trackEvent`'s synchronous validation error. -/
def trackEventValidationMsg : String :=
  "eventId must be a number; userId and itemId must be a string or number"

/-- Source expression `existingRid`: the caller's `requestId` when it is a
string (the empty string included), else the caller's `request_id` when it
is a string, else `undefined`. -/
def existingRid (data : TrackEventInput) : Option String :=
  match data.requestId with
  | JSValue.str s => some s
  | _ =>
    match data.request_id with
    | JSValue.str s => some s
    | _ => none

/-- JS falsiness of an optional string: `undefined` and the empty string
are falsy, every other string is truthy.  This is the `!existingRid` test
and the `ridToAttach ?` spread guard of the source. -/
def jsStrFalsy : Option String → Bool
  | none => true
  | some s => s == ""

/-- Source `trackEvent(data)`: throw synchronously unless `eventId` is a
number and `userId` and `itemId` are each a number or a string; otherwise
compute `existingRid` from the caller's `requestId` / `request_id` string
fields, attach the remembered recommendation `request_id` when propagation
is on and `existingRid` is falsy (so a caller-supplied empty string counts
as absent), stamp `client_ts` with the current ISO time (passed in as
`isoNow`), and enqueue the payload.  The payload override itself is the
source's conditional spread on `ridToAttach`, again a truthiness test, so
an empty remembered id overrides nothing.  A
rejected submission never reaches `enqueueEvent`, so the instance state is
untouched. -/
def trackEvent (st : SDKState EventPayload) (data : TrackEventInput)
    (isoNow : String) (now : Nat) : Except String (EnqueueRes EventPayload) :=
  if !data.eventId.isNumber ||
      !(data.userId.isNumber || data.userId.isString) ||
      !(data.itemId.isNumber || data.itemId.isString) then
    Except.error trackEventValidationMsg
  else
    let ridToAttach : Option String :=
      if jsStrFalsy (existingRid data) && st.propagateRecommendationRequestId then
        st.lastRecommendationRequestId
      else none
    let payload : EventPayload :=
      { eventId := data.eventId, userId := data.userId, itemId := data.itemId,
        requestId := data.requestId,
        request_id := match ridToAttach with
          | some r => if r == "" then data.request_id else JSValue.str r
          | none => data.request_id,
        client_ts := isoNow }
    Except.ok (enqueueEvent st payload now)

/-! ## Helper lemmas -/

/-- A trim that does not overflow is the identity. -/
theorem trimBufferIfNeeded_noop {α : Type} (st : SDKState α) (n : Nat)
    (h : st.eventBuffer.length + n ≤ st.maxBufferedEvents) :
    trimBufferIfNeeded st n = (st, []) := by
  have hz : st.eventBuffer.length + n - st.maxBufferedEvents = 0 := by omega
  simp [trimBufferIfNeeded, hz]

/-- The trim only rewrites the buffer: every other state field survives. -/
theorem trimBufferIfNeeded_fields {α : Type} (st : SDKState α) (n : Nat) :
    (trimBufferIfNeeded st n).1 =
      { st with eventBuffer := (trimBufferIfNeeded st n).1.eventBuffer } := by
  simp only [trimBufferIfNeeded]
  split <;> rfl

/-- The buffer after a trim is the suffix left by dropping the overflow. -/
theorem trimBufferIfNeeded_buffer {α : Type} (st : SDKState α) (n : Nat) :
    (trimBufferIfNeeded st n).1.eventBuffer =
      st.eventBuffer.drop (st.eventBuffer.length + n - st.maxBufferedEvents) := by
  simp only [trimBufferIfNeeded]
  split
  · rfl
  · next h =>
    have hz : st.eventBuffer.length + n - st.maxBufferedEvents = 0 := by omega
    simp [hz]

/-- The entries a trim rejects are exactly the dropped overflow prefix. -/
theorem trimBufferIfNeeded_settles {α : Type} (st : SDKState α) (n : Nat) :
    (trimBufferIfNeeded st n).2 =
      (st.eventBuffer.take (st.eventBuffer.length + n - st.maxBufferedEvents)).map
        (fun e => Settle.reject e.callbackId SdkError.bufferExceeded) := by
  simp only [trimBufferIfNeeded]
  split
  · rfl
  · next h =>
    have hz : st.eventBuffer.length + n - st.maxBufferedEvents = 0 := by omega
    simp [hz]

/-- An `enqueueEvent` appends the new entry after the capacity trim; the two
branches of its flush trigger build the same buffer. -/
theorem enqueueEvent_buffer {α : Type} (st : SDKState α) (p : α) (now : Nat) :
    (enqueueEvent st p now).st.eventBuffer =
      (trimBufferIfNeeded st 1).1.eventBuffer ++
        [{ payload := p, callbackId := (trimBufferIfNeeded st 1).1.nextCallbackId,
           retries := 0, enqueueTime := now }] := by
  simp only [enqueueEvent]
  split <;> rfl

/-- The callback invocations of an `enqueueEvent` are those of its trim. -/
theorem enqueueEvent_settles {α : Type} (st : SDKState α) (p : α) (now : Nat) :
    (enqueueEvent st p now).settles = (trimBufferIfNeeded st 1).2 := by
  simp only [enqueueEvent]
  split <;> rfl

/-- The trim leaves the sticky downgrade flag alone. -/
theorem trimBufferIfNeeded_flag {α : Type} (st : SDKState α) (n : Nat) :
    (trimBufferIfNeeded st n).1.arrayBatchingRejected =
      st.arrayBatchingRejected := by
  simp only [trimBufferIfNeeded]
  split <;> rfl

/-- An `enqueueEvent` never touches the sticky downgrade flag. -/
theorem enqueueEvent_flag {α : Type} (st : SDKState α) (p : α) (now : Nat) :
    (enqueueEvent st p now).st.arrayBatchingRejected =
      st.arrayBatchingRejected := by
  simp only [enqueueEvent]
  split <;> exact trimBufferIfNeeded_flag st 1

/-- A `sendIndividually` issues only single-object requests. -/
theorem sendIndividually_no_arr {α : Type} (net : Nat → SendOutcome) :
    ∀ (batch : List (BufferedEvent α)) (i : Nat) (last : Option Nat),
      ∀ r ∈ (sendIndividually net batch i last).requests, r.isArr = false := by
  intro batch
  induction batch with
  | nil => intro i last r hr; simp [sendIndividually] at hr
  | cons e rest ih =>
    intro i last r hr
    simp only [sendIndividually] at hr
    cases hnet : net i with
    | ok resp =>
      rw [hnet] at hr
      simp only [List.mem_cons] at hr
      rcases hr with hr | hr
      · subst hr; rfl
      · exact ih (i + 1) (some resp) r hr
    | fail err =>
      rw [hnet] at hr
      simp only [List.mem_singleton] at hr
      subst hr; rfl

/-- The requests `sendIndividually` issues are the single-object posts of a
prefix of the batch, in batch order. -/
theorem sendIndividually_requests_shape {α : Type} (net : Nat → SendOutcome) :
    ∀ (batch : List (BufferedEvent α)) (i : Nat) (last : Option Nat),
      ∃ m, m ≤ batch.length ∧
        (sendIndividually net batch i last).requests =
          (batch.take m).map fun e => Request.single e.payload := by
  intro batch
  induction batch with
  | nil => intro i last; exact ⟨0, by simp [sendIndividually]⟩
  | cons e rest ih =>
    intro i last
    simp only [sendIndividually]
    cases hnet : net i with
    | ok resp =>
      obtain ⟨m, hm, hreq⟩ := ih (i + 1) (some resp)
      exact ⟨m + 1, by simpa using hm, by simp [List.take_succ_cons, hreq]⟩
    | fail err =>
      exact ⟨1, by simp, by simp⟩

/-- A downgraded (or array-disabled, or singleton) batch goes straight to
`sendIndividually` and its failure propagates with no inline retry. -/
theorem sendBatch_downgraded {α : Type} (st : SDKState α)
    (net : Nat → SendOutcome) (i : Nat) (batch : List (BufferedEvent α))
    (h : st.arrayBatchingRejected = true) :
    sendBatch st net i batch =
      { result := (sendIndividually net batch i none).result, st := st,
        netIdx := (sendIndividually net batch i none).netIdx,
        requests := (sendIndividually net batch i none).requests } := by
  simp [sendBatch, h]

/-- A `sendBatch` either returns the state unchanged or only sets the sticky
downgrade flag. -/
theorem sendBatch_st_cases {α : Type} (st : SDKState α)
    (net : Nat → SendOutcome) (i : Nat) (batch : List (BufferedEvent α)) :
    (sendBatch st net i batch).st = st ∨
    (sendBatch st net i batch).st =
      { st with arrayBatchingRejected := true } := by
  simp only [sendBatch]
  split
  · cases net i with
    | ok r => left; rfl
    | fail err =>
      simp only
      split
      · right; rfl
      · left; rfl
  · left; rfl

/-- A `sendBatch` never removes or reorders buffered entries. -/
theorem sendBatch_buffer {α : Type} (st : SDKState α)
    (net : Nat → SendOutcome) (i : Nat) (batch : List (BufferedEvent α)) :
    (sendBatch st net i batch).st.eventBuffer = st.eventBuffer := by
  rcases sendBatch_st_cases st net i batch with h | h <;> rw [h]

/-- A `sendBatch` preserves every configuration field and counter (only the
downgrade flag can change). -/
theorem sendBatch_config {α : Type} (st : SDKState α)
    (net : Nat → SendOutcome) (i : Nat) (batch : List (BufferedEvent α)) :
    (sendBatch st net i batch).st.maxBatchSize = st.maxBatchSize ∧
    (sendBatch st net i batch).st.maxBufferedEvents = st.maxBufferedEvents ∧
    (sendBatch st net i batch).st.maxEventRetries = st.maxEventRetries ∧
    (sendBatch st net i batch).st.flushRetryCount = st.flushRetryCount := by
  rcases sendBatch_st_cases st net i batch with h | h <;> rw [h] <;>
    exact ⟨rfl, rfl, rfl, rfl⟩

/-- A `sendBatch` never clears the sticky downgrade flag. -/
theorem sendBatch_flag_mono {α : Type} (st : SDKState α)
    (net : Nat → SendOutcome) (i : Nat) (batch : List (BufferedEvent α))
    (h : st.arrayBatchingRejected = true) :
    (sendBatch st net i batch).st.arrayBatchingRejected = true := by
  rcases sendBatch_st_cases st net i batch with hc | hc <;> rw [hc]
  exact h

/-- One failing iteration of the drain loop: the batch (the buffer's
prefix of at most `maxBatchSize` entries) is concatenated back onto the
front of the buffer, the capacity trim re-runs, the consecutive-failure
counter increments, and the loop breaks — scheduling a backoff re-flush
while the counter is within `maxEventRetries`, and otherwise rejecting
every batch entry with the max-retries error (while the requeued batch
stays in the buffer). -/
theorem drainLoop_fail_step {α : Type} (net : Nat → SendOutcome)
    (fuel i : Nat) (st : SDKState α) (err : SendError)
    (hne : st.eventBuffer.isEmpty = false)
    (herr : (sendBatch { st with eventBuffer := st.eventBuffer.drop st.maxBatchSize }
        net i (st.eventBuffer.take st.maxBatchSize)).result = Except.error err) :
    drainLoop net (fuel + 1) st i =
      (let batch := st.eventBuffer.take st.maxBatchSize
       let sres := sendBatch { st with eventBuffer := st.eventBuffer.drop st.maxBatchSize }
         net i batch
       let trimmed := trimBufferIfNeeded
         { sres.st with eventBuffer := batch ++ sres.st.eventBuffer } 0
       let st3 : SDKState α :=
         { trimmed.1 with flushRetryCount := trimmed.1.flushRetryCount + 1 }
       if st3.flushRetryCount ≤ st3.maxEventRetries then
         { st := { st3 with flushTimer := true }, settles := trimmed.2,
           requests := sres.requests, netIdx := sres.netIdx }
       else
         { st := st3,
           settles := trimmed.2 ++
             (batch.map fun e => Settle.reject e.callbackId SdkError.maxRetries),
           requests := sres.requests, netIdx := sres.netIdx }) := by
  simp only [drainLoop, hne, Bool.false_eq_true, if_false]
  rw [herr]

/-- One successful iteration of the drain loop: every batch entry is
resolved with the batch's response, the failure counter resets, and the
loop continues on the shortened buffer. -/
theorem drainLoop_ok_step {α : Type} (net : Nat → SendOutcome)
    (fuel i : Nat) (st : SDKState α) (r : Option Nat)
    (hne : st.eventBuffer.isEmpty = false)
    (hok : (sendBatch { st with eventBuffer := st.eventBuffer.drop st.maxBatchSize }
        net i (st.eventBuffer.take st.maxBatchSize)).result = Except.ok r) :
    drainLoop net (fuel + 1) st i =
      (let batch := st.eventBuffer.take st.maxBatchSize
       let sres := sendBatch { st with eventBuffer := st.eventBuffer.drop st.maxBatchSize }
         net i batch
       let st2 : SDKState α := { sres.st with flushRetryCount := 0 }
       let tail := drainLoop net fuel st2 sres.netIdx
       { st := tail.st,
         settles := (batch.map fun e => Settle.resolve e.callbackId r) ++ tail.settles,
         requests := sres.requests ++ tail.requests, netIdx := tail.netIdx }) := by
  simp only [drainLoop, hne, Bool.false_eq_true, if_false]
  rw [hok]

/-- An empty buffer makes the drain loop a no-op at any fuel. -/
theorem drainLoop_nil {α : Type} (net : Nat → SendOutcome) (fuel i : Nat)
    (st : SDKState α) (h : st.eventBuffer = []) :
    drainLoop net fuel st i = { st := st, settles := [], requests := [], netIdx := i } := by
  cases fuel <;> simp [drainLoop, h]

/-- Once the sticky downgrade flag is set, the drain loop keeps it set and
never issues an array-shaped request, whatever the network answers. -/
theorem drainLoop_downgraded {α : Type} (net : Nat → SendOutcome) :
    ∀ (fuel : Nat) (st : SDKState α) (i : Nat),
      st.arrayBatchingRejected = true →
      (drainLoop net fuel st i).st.arrayBatchingRejected = true ∧
      ∀ r ∈ (drainLoop net fuel st i).requests, r.isArr = false := by
  intro fuel
  induction fuel with
  | zero =>
    intro st i h
    exact ⟨h, by simp [drainLoop]⟩
  | succ fuel ih =>
    intro st i h
    by_cases hb : st.eventBuffer.isEmpty
    · refine ⟨?_, ?_⟩ <;> simp [drainLoop, hb, h]
    · replace hb : st.eventBuffer.isEmpty = false := by simpa using hb
      have hsb := sendBatch_downgraded
        { st with eventBuffer := st.eventBuffer.drop st.maxBatchSize } net i
        (st.eventBuffer.take st.maxBatchSize) h
      cases hres : (sendIndividually net (st.eventBuffer.take st.maxBatchSize)
          i none).result with
      | ok r =>
        have hok : (sendBatch { st with eventBuffer := st.eventBuffer.drop st.maxBatchSize }
            net i (st.eventBuffer.take st.maxBatchSize)).result = Except.ok r := by
          rw [hsb]; exact hres
        rw [drainLoop_ok_step net fuel i st r hb hok]
        simp only [hsb]
        obtain ⟨htail, hreqs⟩ := ih
          { ({ st with eventBuffer := st.eventBuffer.drop st.maxBatchSize } :
              SDKState α) with flushRetryCount := 0 }
          ((sendIndividually net (st.eventBuffer.take st.maxBatchSize) i
            none).netIdx) h
        refine ⟨htail, ?_⟩
        intro r hr
        rw [List.mem_append] at hr
        rcases hr with hr | hr
        · exact sendIndividually_no_arr net _ i none r hr
        · exact hreqs r hr
      | error err =>
        have hfail : (sendBatch { st with eventBuffer := st.eventBuffer.drop st.maxBatchSize }
            net i (st.eventBuffer.take st.maxBatchSize)).result = Except.error err := by
          rw [hsb]; exact hres
        rw [drainLoop_fail_step net fuel i st err hb hfail]
        simp only [hsb]
        split
        · refine ⟨?_, ?_⟩
          · exact (trimBufferIfNeeded_flag _ 0).trans h
          · intro r hr
            exact sendIndividually_no_arr net _ i none r hr
        · refine ⟨?_, ?_⟩
          · exact (trimBufferIfNeeded_flag _ 0).trans h
          · intro r hr
            exact sendIndividually_no_arr net _ i none r hr

/-! ## Concrete scenarios used by the claim theorems -/

/-- A network oracle whose every request fails with a non-HTTP transport
error. -/
def netAlwaysFail : Nat → SendOutcome := fun _ => SendOutcome.fail SendError.network

/-- One buffered entry whose completion-callback pair is number 0. -/
def soleEntry : BufferedEvent Nat :=
  { payload := 10, callbackId := 0, retries := 0, enqueueTime := 0 }

/-- Retry-exhaustion scenario: one queued entry, `maxEventRetries = 0`,
default batch size, ample capacity. -/
def exhaustState : SDKState Nat :=
  { initState Nat 200 5000 0 false with eventBuffer := [soleEntry] }

/-- Retry-exhaustion scenario with `maxBufferedEvents = 0`, so the
post-failure requeue itself overflows the capacity bound. -/
def exhaustTrimState : SDKState Nat :=
  { initState Nat 200 0 0 false with eventBuffer := [soleEntry] }

/-- A concrete state observed at a suspension point of an in-progress
flush: `isFlushing` set and pending promise number 7 published. -/
def busyState : SDKState Nat :=
  { initState Nat 200 5000 5 false with
    isFlushing := true, pendingFlushPromise := some 7 }

/-! ## Claim theorems -/

/-- C1: at the failing input — one queued entry, `maxEventRetries = 0`,
every send failing — the flush does reject the failed batch with the
terminal max-retries error and stops, but the rejected entry is still in
the event buffer after the call's failure handling: `flushEvents` re-queues
the batch at the front before checking the retry ceiling and the
exhaustion branch never removes it, contradicting the claim (and the
code's own "Dropping events after max retries" log line). -/
theorem C1_exhausted_batch_still_queued :
    (flushEvents exhaustState netAlwaysFail 0).settles =
      [Settle.reject 0 SdkError.maxRetries] ∧
    (flushEvents exhaustState netAlwaysFail 0).st.eventBuffer = [soleEntry] := by
  decide

/-- C2: at the failing input — one queued entry, `maxEventRetries = 0`,
`maxBufferedEvents = 0`, every send failing — a single `flushEvents` call
invokes the same entry's `reject` twice: once from the post-requeue
capacity trim (buffer exceeded) and once from retry exhaustion.  Callback
pair 0 is settled twice, refuting the settle-exactly-once claim. -/
theorem C2_callback_pair_settled_twice :
    (flushEvents exhaustTrimState netAlwaysFail 0).settles =
      [Settle.reject 0 SdkError.bufferExceeded,
        Settle.reject 0 SdkError.maxRetries] ∧
    (flushEvents exhaustTrimState netAlwaysFail 0).settles.map Settle.callbackOf
      = [0, 0] := by
  decide

/-- C7: `flushEvents` is idempotent under concurrent invocation.  Observed
at a suspension point of an in-progress flush (`isFlushing` set and the
shared pending promise published), a second call only clears the timer and
returns that same in-flight promise — no second drain starts: no request
is issued, no callback fires, the buffer and counters are untouched.  A
call with an empty queue and nothing in flight returns an
already-resolved promise (`Promise.resolve()`). -/
theorem C7_flush_idempotent {α : Type} (st : SDKState α)
    (net : Nat → SendOutcome) (i : Nat) :
    (∀ pid, st.isFlushing = true → st.pendingFlushPromise = some pid →
      flushEvents st net i =
        { st := { st with flushTimer := false }, settles := [], requests := [],
          netIdx := i, ret := FlushReturn.inflight pid }) ∧
    (st.isFlushing = false → st.pendingFlushPromise = none →
      st.eventBuffer = [] →
      flushEvents st net i =
        { st := { st with flushTimer := false }, settles := [], requests := [],
          netIdx := i, ret := FlushReturn.resolved }) := by
  constructor
  · intro pid hf hp
    simp [flushEvents, hf, hp]
  · intro hf hp hb
    simp [flushEvents, hf, hp, hb]

/-- Witness for C7: the in-progress case at `busyState` (the second caller
gets in-flight promise 7 back untouched) and the empty-idle case at a
fresh instance. -/
theorem C7_flush_idempotent_witness :
    flushEvents busyState netAlwaysFail 3 =
      { st := { busyState with flushTimer := false }, settles := [],
        requests := [], netIdx := 3, ret := FlushReturn.inflight 7 } ∧
    flushEvents (initState Nat 200 5000 5 false) netAlwaysFail 0 =
      { st := { initState Nat 200 5000 5 false with flushTimer := false },
        settles := [], requests := [], netIdx := 0,
        ret := FlushReturn.resolved } := by
  constructor
  · exact (C7_flush_idempotent busyState netAlwaysFail 3).1 7 rfl rfl
  · exact (C7_flush_idempotent (initState Nat 200 5000 5 false)
      netAlwaysFail 0).2 rfl rfl rfl

/-- C10: on every enqueue the capacity trim runs before the append, so
the evicted entries are always drawn from the pre-existing buffer — the
entry being enqueued is never evicted by its own enqueue call — and
immediately after the append the buffer holds at most
`max maxBufferedEvents 1` entries.  With `maxBufferedEvents = 0` the
buffer still holds exactly the one just-enqueued entry, exceeding the
configured capacity. -/
theorem C10_trim_before_append {α : Type} (st : SDKState α) (p : α)
    (now : Nat) :
    (enqueueEvent st p now).settles =
      (st.eventBuffer.take (st.eventBuffer.length + 1 - st.maxBufferedEvents)).map
        (fun e => Settle.reject e.callbackId SdkError.bufferExceeded) ∧
    (enqueueEvent st p now).st.eventBuffer.length ≤ max st.maxBufferedEvents 1 ∧
    (st.maxBufferedEvents = 0 →
      (enqueueEvent st p now).st.eventBuffer.length = 1) := by
  refine ⟨?_, ?_, ?_⟩
  · rw [enqueueEvent_settles, trimBufferIfNeeded_settles]
  · rw [enqueueEvent_buffer, List.length_append, trimBufferIfNeeded_buffer,
      List.length_drop]
    simp only [List.length_singleton]
    omega
  · intro h0
    rw [enqueueEvent_buffer, List.length_append, trimBufferIfNeeded_buffer,
      List.length_drop, h0]
    simp

/-- Witness for C10 with `maxBufferedEvents = 0`: enqueueing onto a fresh
zero-capacity instance leaves exactly the new entry buffered. -/
theorem C10_trim_before_append_witness :
    (enqueueEvent (initState Nat 200 0 5 false) 42 0).st.eventBuffer.length
      = 1 :=
  (C10_trim_before_append (initState Nat 200 0 5 false) 42 0).2.2 rfl

/-- Once the sticky downgrade flag is set, a whole `flushEvents` call keeps
it set and issues no array-shaped request. -/
theorem flushEvents_downgraded {α : Type} (st : SDKState α)
    (net : Nat → SendOutcome) (i : Nat)
    (h : st.arrayBatchingRejected = true) :
    (flushEvents st net i).st.arrayBatchingRejected = true ∧
    ∀ r ∈ (flushEvents st net i).requests, r.isArr = false := by
  simp only [flushEvents]
  split
  · exact ⟨h, by simp⟩
  · obtain ⟨hflag, hreq⟩ := drainLoop_downgraded net
      ({ st with
          flushTimer := false
          isFlushing := true
          pendingFlushPromise := some st.nextPromiseId
          nextPromiseId := st.nextPromiseId + 1 } :
        SDKState α).eventBuffer.length
      { st with
        flushTimer := false
        isFlushing := true
        pendingFlushPromise := some st.nextPromiseId
        nextPromiseId := st.nextPromiseId + 1 } i h
    exact ⟨hflag, hreq⟩

/-- After a failing drain iteration the buffer is the requeued batch in
front of the untouched remainder, re-trimmed from the front against
`maxBufferedEvents`; the trim's buffer-exceeded rejections open the
iteration's settle list. -/
theorem drainLoop_fail_buffer {α : Type} (net : Nat → SendOutcome)
    (fuel i : Nat) (st : SDKState α) (err : SendError)
    (hne : st.eventBuffer.isEmpty = false)
    (herr : (sendBatch { st with eventBuffer := st.eventBuffer.drop st.maxBatchSize }
        net i (st.eventBuffer.take st.maxBatchSize)).result = Except.error err) :
    (drainLoop net (fuel + 1) st i).st.eventBuffer =
      st.eventBuffer.drop (st.eventBuffer.length - st.maxBufferedEvents) ∧
    ∃ tl, (drainLoop net (fuel + 1) st i).settles =
      (st.eventBuffer.take (st.eventBuffer.length - st.maxBufferedEvents)).map
        (fun e => Settle.reject e.callbackId SdkError.bufferExceeded) ++ tl := by
  rw [drainLoop_fail_step net fuel i st err hne herr]
  dsimp only
  rcases sendBatch_st_cases
      { st with eventBuffer := st.eventBuffer.drop st.maxBatchSize } net i
      (st.eventBuffer.take st.maxBatchSize) with hc | hc <;>
    rw [hc] <;>
    constructor
  · split <;>
      simp [trimBufferIfNeeded_buffer, List.take_append_drop]
  · split
    · exact ⟨[], by simp [trimBufferIfNeeded_settles, List.take_append_drop]⟩
    · exact ⟨(st.eventBuffer.take st.maxBatchSize).map
          (fun e => Settle.reject e.callbackId SdkError.maxRetries),
        by simp [trimBufferIfNeeded_settles, List.take_append_drop]⟩
  · split <;>
      simp [trimBufferIfNeeded_buffer, List.take_append_drop]
  · split
    · exact ⟨[], by simp [trimBufferIfNeeded_settles, List.take_append_drop]⟩
    · exact ⟨(st.eventBuffer.take st.maxBatchSize).map
          (fun e => Settle.reject e.callbackId SdkError.maxRetries),
        by simp [trimBufferIfNeeded_settles, List.take_append_drop]⟩

/-- Three buffered entries with distinct callback pairs, for concrete
witnesses. -/
def entryA : BufferedEvent Nat :=
  { payload := 1, callbackId := 0, retries := 0, enqueueTime := 0 }

/-- Second witness entry. -/
def entryB : BufferedEvent Nat :=
  { payload := 2, callbackId := 1, retries := 0, enqueueTime := 0 }

/-- Third witness entry. -/
def entryC : BufferedEvent Nat :=
  { payload := 3, callbackId := 2, retries := 0, enqueueTime := 0 }

/-- The malformed submission refuting C8: a string event identifier with
well-typed user and item identifiers. -/
def c8BadInput : TrackEventInput :=
  { eventId := JSValue.str "click", userId := JSValue.num 1,
    itemId := JSValue.num 2, requestId := JSValue.undef,
    request_id := JSValue.undef }

/-- C8 counterexample: the claim says the event identifier may be numeric
or string, but `trackEvent` rejects a string event identifier
synchronously (the `typeof data.eventId !== "number"` guard), so the
claim as stated fails at this input. -/
theorem C8_string_eventId_rejected :
    trackEvent (initState EventPayload 200 5000 5 false) c8BadInput
      "2026-01-01T00:00:00.000Z" 0 = Except.error trackEventValidationMsg := rfl

/-- The guarded correlation-id attach, written as one conditional: when
the caller supplied a truthy (non-empty string) id, or propagation is off,
the original field survives; otherwise the remembered id is attached when
it is itself truthy. -/
theorem attach_cases (f prop : Bool) (last : Option String) (orig : JSValue) :
    (match (if f && prop then last else none) with
      | some r => if r == "" then orig else JSValue.str r
      | none => orig) =
    (if !f || !prop then orig
     else
       match last with
       | some r => if r == "" then orig else JSValue.str r
       | none => orig) := by
  cases f <;> cases prop <;> cases last <;> simp

/-- C8 (amended): the event identifier must be numeric, while user and
item identifiers may each be numeric or string.  `trackEvent` rejects
synchronously with the validation error — returning without touching the
instance, so the submission never enters the queue — exactly when that
typing fails; otherwise it enqueues the caller's fields stamped with the
client-side ISO timestamp and, when propagation is enabled and the
caller-supplied `requestId`/`request_id` is falsy (absent, not a string,
or the empty string — the source's truthiness test), the correlation id
captured from the last recommendation fetch, itself attached only when
non-empty. -/
theorem C8_trackEvent_validation_and_stamp
    (st : SDKState EventPayload) (data : TrackEventInput)
    (isoNow : String) (now : Nat) :
    ((data.eventId.isNumber && (data.userId.isNumber || data.userId.isString)
        && (data.itemId.isNumber || data.itemId.isString)) = false →
      trackEvent st data isoNow now = Except.error trackEventValidationMsg) ∧
    ((data.eventId.isNumber && (data.userId.isNumber || data.userId.isString)
        && (data.itemId.isNumber || data.itemId.isString)) = true →
      trackEvent st data isoNow now =
        Except.ok (enqueueEvent st
          { eventId := data.eventId, userId := data.userId,
            itemId := data.itemId, requestId := data.requestId,
            request_id :=
              if !jsStrFalsy (existingRid data)
                  || !st.propagateRecommendationRequestId then
                data.request_id
              else
                match st.lastRecommendationRequestId with
                | some r => if r == "" then data.request_id else JSValue.str r
                | none => data.request_id,
            client_ts := isoNow } now)) := by
  constructor
  · intro hbad
    simp only [trackEvent]
    have hguard : (!data.eventId.isNumber ||
        !(data.userId.isNumber || data.userId.isString) ||
        !(data.itemId.isNumber || data.itemId.isString)) = true := by
      cases ha : data.eventId.isNumber <;>
        cases hb : data.userId.isNumber || data.userId.isString <;>
          cases hc : data.itemId.isNumber || data.itemId.isString <;>
            simp_all
    rw [hguard]
    simp
  · intro hgood
    obtain ⟨⟨ha, hb⟩, hc⟩ : (data.eventId.isNumber = true ∧
        (data.userId.isNumber || data.userId.isString) = true) ∧
        (data.itemId.isNumber || data.itemId.isString) = true := by
      simpa [Bool.and_eq_true] using hgood
    simp only [trackEvent, ha, hb, hc, Bool.not_true, Bool.false_or,
      Bool.or_self, if_false]
    rw [attach_cases]
    rfl

/-- A valid submission with no caller-supplied correlation id. -/
def c8GoodInput : TrackEventInput :=
  { eventId := JSValue.num 5, userId := JSValue.str "u1",
    itemId := JSValue.num 9, requestId := JSValue.undef,
    request_id := JSValue.undef }

/-- An instance that has captured correlation id "rid-1" from a prior
recommendation fetch, with propagation at its default (enabled). -/
def c8St : SDKState EventPayload :=
  { initState EventPayload 200 5000 5 false with
    lastRecommendationRequestId := some "rid-1" }

/-- A valid submission whose caller-supplied `requestId` is the empty
string — falsy in JS, so the remembered id must still be attached. -/
def c8EmptyRidInput : TrackEventInput :=
  { eventId := JSValue.num 5, userId := JSValue.str "u1",
    itemId := JSValue.num 9, requestId := JSValue.str "",
    request_id := JSValue.undef }

/-- Witness for C8 (amended): the valid submission with no correlation id
is enqueued with the stamped timestamp and the propagated correlation id
attached, and so is the submission carrying an empty-string `requestId`
(falsy, hence treated as absent by the source's truthiness test). -/
theorem C8_trackEvent_validation_and_stamp_witness :
    trackEvent c8St c8GoodInput "2026-02-03T04:05:06.000Z" 3 =
      Except.ok (enqueueEvent c8St
        { eventId := JSValue.num 5, userId := JSValue.str "u1",
          itemId := JSValue.num 9, requestId := JSValue.undef,
          request_id := JSValue.str "rid-1",
          client_ts := "2026-02-03T04:05:06.000Z" } 3) ∧
    trackEvent c8St c8EmptyRidInput "2026-02-03T04:05:06.000Z" 3 =
      Except.ok (enqueueEvent c8St
        { eventId := JSValue.num 5, userId := JSValue.str "u1",
          itemId := JSValue.num 9, requestId := JSValue.str "",
          request_id := JSValue.str "rid-1",
          client_ts := "2026-02-03T04:05:06.000Z" } 3) :=
  ⟨(C8_trackEvent_validation_and_stamp c8St c8GoodInput
      "2026-02-03T04:05:06.000Z" 3).2 (by decide),
    (C8_trackEvent_validation_and_stamp c8St c8EmptyRidInput
      "2026-02-03T04:05:06.000Z" 3).2 (by decide)⟩

/-- When the first `k - 1` posts succeed and the `k`-th fails,
`sendIndividually` stops after `k` requests — the single-object posts of
the batch's first `k` entries, in order — and completes with the `k`-th
failure; entries after the `k`-th are never sent. -/
theorem sendIndividually_fail_at {α : Type} (net : Nat → SendOutcome) :
    ∀ (k : Nat) (batch : List (BufferedEvent α)) (i : Nat) (last : Option Nat)
      (err : SendError),
      1 ≤ k → k ≤ batch.length →
      (∀ j, j + 1 < k → ∃ r, net (i + j) = SendOutcome.ok r) →
      net (i + (k - 1)) = SendOutcome.fail err →
      sendIndividually net batch i last =
        { result := Except.error err, netIdx := i + k,
          requests := (batch.take k).map fun e => Request.single e.payload } := by
  intro k
  induction k with
  | zero => intro batch i last err h1; omega
  | succ k ih =>
    intro batch i last err _ hlen hok hfail
    cases batch with
    | nil => simp at hlen
    | cons e rest =>
      cases k with
      | zero =>
        have hnet : net i = SendOutcome.fail err := by simpa using hfail
        simp [sendIndividually, hnet]
      | succ k' =>
        obtain ⟨r, hr⟩ := hok 0 (by omega)
        have hnet : net i = SendOutcome.ok r := by simpa using hr
        have hok' : ∀ j, j + 1 < k' + 1 → ∃ r, net (i + 1 + j) = SendOutcome.ok r := by
          intro j hj
          obtain ⟨r', hr'⟩ := hok (j + 1) (by omega)
          exact ⟨r', by rw [show i + 1 + j = i + (j + 1) by omega]; exact hr'⟩
        have hfail' : net (i + 1 + (k' + 1 - 1)) = SendOutcome.fail err := by
          rw [show i + 1 + (k' + 1 - 1) = i + (k' + 1 + 1 - 1) by omega]
          exact hfail
        have htail := ih rest (i + 1) (some r) err (by omega) (by simpa using hlen)
          hok' hfail'
        simp [sendIndividually, hnet, htail, List.take_succ_cons]
        omega

/-- When every post succeeds, `sendIndividually` sends each entry exactly
once, in order, and completes successfully. -/
theorem sendIndividually_all_ok {α : Type} (net : Nat → SendOutcome)
    (hok : ∀ j, ∃ r, net j = SendOutcome.ok r) :
    ∀ (batch : List (BufferedEvent α)) (i : Nat) (last : Option Nat),
      ∃ resp, sendIndividually net batch i last =
        { result := Except.ok resp, netIdx := i + batch.length,
          requests := batch.map fun e => Request.single e.payload } := by
  intro batch
  induction batch with
  | nil => intro i last; exact ⟨last, by simp [sendIndividually]⟩
  | cons e rest ih =>
    intro i last
    obtain ⟨r, hr⟩ := hok i
    obtain ⟨resp, hresp⟩ := ih (i + 1) (some r)
    refine ⟨resp, ?_⟩
    simp [sendIndividually, hr, hresp]
    omega

/-- Scenario lemma for a downgraded instance whose whole buffer fits one
batch and whose `k`-th individual post fails after `k - 1` successes,
within the retry and capacity budgets: the drain iteration sends exactly
the first `k` single-object posts, settles nothing, re-queues the whole
batch (the buffer is unchanged), bumps the failure counter and re-arms the
timer. -/
theorem drainLoop_indiv_fail_scenario {α : Type} (net : Nat → SendOutcome)
    (i k fuel : Nat) (S : SDKState α) (err : SendError)
    (hflag : S.arrayBatchingRejected = true)
    (hn : 0 < S.eventBuffer.length)
    (hmbs : S.eventBuffer.length ≤ S.maxBatchSize)
    (hk1 : 1 ≤ k) (hk2 : k ≤ S.eventBuffer.length)
    (hok : ∀ j, j + 1 < k → ∃ r, net (i + j) = SendOutcome.ok r)
    (hfail : net (i + (k - 1)) = SendOutcome.fail err)
    (hcap : S.eventBuffer.length ≤ S.maxBufferedEvents)
    (hretry : S.flushRetryCount + 1 ≤ S.maxEventRetries) :
    drainLoop net (fuel + 1) S i =
      { st := { S with
          flushRetryCount := S.flushRetryCount + 1
          flushTimer := true },
        settles := [],
        requests := (S.eventBuffer.take k).map fun e => Request.single e.payload,
        netIdx := i + k } := by
  have hne : S.eventBuffer.isEmpty = false := by
    cases hbuf : S.eventBuffer
    · rw [hbuf] at hn; simp at hn
    · simp [hbuf]
  have hbatchlen : k ≤ (S.eventBuffer.take S.maxBatchSize).length := by
    rw [List.length_take]; omega
  have hindiv := sendIndividually_fail_at net k
    (S.eventBuffer.take S.maxBatchSize) i none err hk1 hbatchlen hok hfail
  have hsb := sendBatch_downgraded
    { S with eventBuffer := S.eventBuffer.drop S.maxBatchSize } net i
    (S.eventBuffer.take S.maxBatchSize) hflag
  have herr : (sendBatch { S with eventBuffer := S.eventBuffer.drop S.maxBatchSize }
      net i (S.eventBuffer.take S.maxBatchSize)).result = Except.error err := by
    rw [hsb, hindiv]
  rw [drainLoop_fail_step net fuel i S err hne herr]
  dsimp only
  rw [hsb, hindiv]
  dsimp only
  rw [List.take_append_drop]
  rw [trimBufferIfNeeded_noop _ 0 (by dsimp only; omega)]
  dsimp only
  split
  · have htk : (S.eventBuffer.take S.maxBatchSize).take k = S.eventBuffer.take k := by
      rw [List.take_take]
      congr 1
      omega
    rw [htk]
  · omega

/-- Scenario lemma for a downgraded instance whose whole buffer fits one
batch against an all-success network: the drain sends each buffered entry
exactly once as its own single-object post, in order. -/
theorem drainLoop_indiv_all_ok {α : Type} (net : Nat → SendOutcome)
    (i fuel : Nat) (S : SDKState α)
    (hflag : S.arrayBatchingRejected = true)
    (hn : 0 < S.eventBuffer.length)
    (hmbs : S.eventBuffer.length ≤ S.maxBatchSize)
    (hok : ∀ j, ∃ r, net j = SendOutcome.ok r) :
    (drainLoop net (fuel + 1) S i).requests =
      S.eventBuffer.map fun e => Request.single e.payload := by
  have hne : S.eventBuffer.isEmpty = false := by
    cases hbuf : S.eventBuffer
    · rw [hbuf] at hn; simp at hn
    · simp [hbuf]
  obtain ⟨resp, hindiv⟩ := sendIndividually_all_ok net hok
    (S.eventBuffer.take S.maxBatchSize) i none
  have hsb := sendBatch_downgraded
    { S with eventBuffer := S.eventBuffer.drop S.maxBatchSize } net i
    (S.eventBuffer.take S.maxBatchSize) hflag
  have hres : (sendBatch { S with eventBuffer := S.eventBuffer.drop S.maxBatchSize }
      net i (S.eventBuffer.take S.maxBatchSize)).result = Except.ok resp := by
    rw [hsb, hindiv]
  rw [drainLoop_ok_step net fuel i S resp hne hres]
  dsimp only
  rw [hsb, hindiv]
  dsimp only
  rw [drainLoop_nil net fuel _ _ (by dsimp only; exact List.drop_eq_nil_of_le hmbs)]
  dsimp only
  rw [List.append_nil, List.take_of_length_le hmbs]

/-- Unfolding of `flushEvents` in the draining case (no flush in progress,
non-empty buffer): publish a fresh pending promise, run the drain loop,
then clear the in-progress markers. -/
theorem flushEvents_run {α : Type} (st : SDKState α) (net : Nat → SendOutcome)
    (i : Nat) (hflush : st.isFlushing = false)
    (hne : st.eventBuffer.isEmpty = false) :
    flushEvents st net i =
      (let st1 : SDKState α := { st with
        flushTimer := false
        isFlushing := true
        pendingFlushPromise := some st.nextPromiseId
        nextPromiseId := st.nextPromiseId + 1 }
       let drained := drainLoop net st1.eventBuffer.length st1 i
       { st := { drained.st with
           isFlushing := false
           pendingFlushPromise := none },
         settles := drained.settles, requests := drained.requests,
         netIdx := drained.netIdx,
         ret := FlushReturn.fresh st.nextPromiseId }) := by
  simp [flushEvents, hflush, hne]

/-- A whole `flushEvents` call on a downgraded, idle instance whose buffer
fits one batch, against an all-success network: each buffered entry is
posted exactly once as its own single-object request, in order. -/
theorem flushEvents_indiv_all_ok {α : Type} (G : SDKState α)
    (net2 : Nat → SendOutcome) (j : Nat)
    (hflag : G.arrayBatchingRejected = true)
    (hflush : G.isFlushing = false)
    (hn : 0 < G.eventBuffer.length)
    (hmbs : G.eventBuffer.length ≤ G.maxBatchSize)
    (hok : ∀ m, ∃ r, net2 m = SendOutcome.ok r) :
    (flushEvents G net2 j).requests =
      G.eventBuffer.map fun e => Request.single e.payload := by
  have hne : G.eventBuffer.isEmpty = false := by
    cases hbuf : G.eventBuffer
    · rw [hbuf] at hn; simp at hn
    · simp [hbuf]
  rw [flushEvents_run G net2 j hflush hne]
  dsimp only
  rw [show G.eventBuffer.length = (G.eventBuffer.length - 1) + 1 by omega]
  rw [drainLoop_indiv_all_ok net2 j (G.eventBuffer.length - 1)
    { G with
      flushTimer := false
      isFlushing := true
      pendingFlushPromise := some G.nextPromiseId
      nextPromiseId := G.nextPromiseId + 1 }
    hflag (by dsimp only; omega) (by dsimp only; omega) hok]

/-- C9: when a downgraded instance sends a batch of more than one entry
individually and the `k`-th individual request fails (`1 < k ≤ n`) after
the first `k - 1` succeeded at the server, the entire batch — including
the `k - 1` already-delivered entries — is re-inserted at the front of
the queue with no entry's future settled (the flush makes exactly `k`
single-object posts and fires no callback), and a later flush against a
healthy network posts every batch payload again, the already-delivered
first `k - 1` included: duplicate delivery under the at-least-once
contract. -/
theorem C9_midbatch_individual_failure_redelivers {α : Type}
    (st : SDKState α) (net : Nat → SendOutcome) (i k : Nat) (err : SendError)
    (hflag : st.arrayBatchingRejected = true)
    (hflush : st.isFlushing = false)
    (hn : 1 < st.eventBuffer.length)
    (hmbs : st.eventBuffer.length ≤ st.maxBatchSize)
    (hk1 : 1 < k) (hk2 : k ≤ st.eventBuffer.length)
    (hok : ∀ j, j + 1 < k → ∃ r, net (i + j) = SendOutcome.ok r)
    (hfail : net (i + (k - 1)) = SendOutcome.fail err)
    (hcap : st.eventBuffer.length ≤ st.maxBufferedEvents)
    (hretry : st.flushRetryCount + 1 ≤ st.maxEventRetries) :
    (flushEvents st net i).requests =
      (st.eventBuffer.take k).map (fun e => Request.single e.payload) ∧
    (flushEvents st net i).st.eventBuffer = st.eventBuffer ∧
    (flushEvents st net i).settles = [] ∧
    (∀ net2, (∀ j, ∃ r, net2 j = SendOutcome.ok r) →
      (flushEvents (flushEvents st net i).st net2
          (flushEvents st net i).netIdx).requests =
        ((st.eventBuffer.take (k - 1)).map fun e => Request.single e.payload) ++
          ((st.eventBuffer.drop (k - 1)).map fun e => Request.single e.payload)) := by
  have hne : st.eventBuffer.isEmpty = false := by
    cases hbuf : st.eventBuffer
    · rw [hbuf] at hn; simp at hn
    · simp [hbuf]
  have hF := flushEvents_run st net i hflush hne
  dsimp only at hF
  rw [show st.eventBuffer.length = (st.eventBuffer.length - 1) + 1 by omega] at hF
  have hdrain := drainLoop_indiv_fail_scenario net i k
    (st.eventBuffer.length - 1)
    { st with
      flushTimer := false
      isFlushing := true
      pendingFlushPromise := some st.nextPromiseId
      nextPromiseId := st.nextPromiseId + 1 }
    err hflag (by dsimp only; omega) (by dsimp only; omega) (by omega)
    (by dsimp only; omega) hok hfail (by dsimp only; omega)
    (by dsimp only; omega)
  rw [hdrain] at hF
  dsimp only at hF
  refine ⟨by rw [hF], by rw [hF], by rw [hF], ?_⟩
  intro net2 hok2
  rw [hF]
  refine (flushEvents_indiv_all_ok _ net2 _ ?_ ?_ ?_ ?_ hok2).trans ?_
  · exact hflag
  · rfl
  · show 0 < st.eventBuffer.length
    omega
  · show st.eventBuffer.length ≤ st.maxBatchSize
    omega
  · show st.eventBuffer.map (fun e => Request.single e.payload) =
      (st.eventBuffer.take (k - 1)).map (fun e => Request.single e.payload) ++
        (st.eventBuffer.drop (k - 1)).map (fun e => Request.single e.payload)
    rw [← List.map_append, List.take_append_drop]

/-- Two-entry downgraded instance for the C9 witness. -/
def c9St : SDKState Nat :=
  { initState Nat 200 5000 5 false with
    arrayBatchingRejected := true
    eventBuffer := [entryA, entryB] }

/-- Network for the C9 witness: the first request succeeds at the server,
the second fails with a transport error. -/
def c9Net : Nat → SendOutcome := fun m =>
  if m = 0 then SendOutcome.ok 7 else SendOutcome.fail SendError.network

/-- Witness for C9: entry A is delivered, entry B's request fails, both
stay queued unsettled, and the next flush delivers entry A to the server a
second time. -/
theorem C9_midbatch_individual_failure_redelivers_witness :
    (flushEvents c9St c9Net 0).requests =
      [Request.single 1, Request.single 2] ∧
    (flushEvents c9St c9Net 0).st.eventBuffer = [entryA, entryB] ∧
    (flushEvents c9St c9Net 0).settles = [] ∧
    (flushEvents (flushEvents c9St c9Net 0).st (fun _ => SendOutcome.ok 9)
        (flushEvents c9St c9Net 0).netIdx).requests =
      [Request.single 1, Request.single 2] := by
  have h := C9_midbatch_individual_failure_redelivers c9St c9Net 0 2
    SendError.network rfl rfl (by decide) (by decide) (by decide) (by decide)
    (fun j hj => by
      have hj0 : j = 0 := by omega
      subst hj0
      exact ⟨7, rfl⟩)
    rfl (by decide) (by decide)
  refine ⟨h.1.trans (by decide), h.2.1.trans (by decide), h.2.2.1, ?_⟩
  exact (h.2.2.2 (fun _ => SendOutcome.ok 9) (fun m => ⟨9, rfl⟩)).trans (by decide)

/-- C3: the inline downgrade retry triggers exactly on an HTTP-level
failure of a multi-entry array send with the downgrade flag still unset:
then the flag is set and the very same batch is resent within the same
call, one single-object request per entry in batch order (the request log
is the failed array request followed by a prefix of the batch's
single-object posts, in order).  A non-HTTP failure of the array send
propagates with no inline retry and no flag change, and with the flag
already set the batch goes straight to individual sends whose failure
propagates unchanged. -/
theorem C3_http_downgrade_inline_retry {α : Type} (st : SDKState α)
    (net : Nat → SendOutcome) (i : Nat) (batch : List (BufferedEvent α))
    (err : SendError) :
    (1 < batch.length → st.disableArrayBatching = false →
      st.arrayBatchingRejected = false → net i = SendOutcome.fail err →
      ((err.isHttp = true →
        sendBatch st net i batch =
          { result := (sendIndividually net batch (i + 1) none).result,
            st := { st with arrayBatchingRejected := true },
            netIdx := (sendIndividually net batch (i + 1) none).netIdx,
            requests := Request.arr (batch.map fun e => e.payload) ::
              (sendIndividually net batch (i + 1) none).requests }) ∧
       (err.isHttp = false →
        sendBatch st net i batch =
          { result := Except.error err, st := st, netIdx := i + 1,
            requests := [Request.arr (batch.map fun e => e.payload)] }))) ∧
    (st.arrayBatchingRejected = true →
      sendBatch st net i batch =
        { result := (sendIndividually net batch i none).result, st := st,
          netIdx := (sendIndividually net batch i none).netIdx,
          requests := (sendIndividually net batch i none).requests }) ∧
    (∃ m, m ≤ batch.length ∧
      (sendIndividually net batch (i + 1) none).requests =
        (batch.take m).map fun e => Request.single e.payload) := by
  refine ⟨?_, fun h => sendBatch_downgraded st net i batch h,
    sendIndividually_requests_shape net batch (i + 1) none⟩
  intro h1 hdis hflag hnet
  constructor
  · intro hhttp
    simp [sendBatch, h1, hdis, hflag, hnet, hhttp]
  · intro hhttp
    simp [sendBatch, h1, hdis, hflag, hnet, hhttp]

/-- Witness for C3 at a concrete two-entry batch whose array send is
rejected with HTTP 400 and whose individual resends succeed: the flag is
set and the log is the array request then both singles in order. -/
theorem C3_http_downgrade_inline_retry_witness :
    sendBatch (initState Nat 200 5000 5 false)
        (fun j => if j = 0 then SendOutcome.fail (SendError.http 400)
          else SendOutcome.ok 7)
        0 [entryA, entryB] =
      { result := (sendIndividually
          (fun j => if j = 0 then SendOutcome.fail (SendError.http 400)
            else SendOutcome.ok 7) [entryA, entryB] 1 none).result,
        st := { initState Nat 200 5000 5 false with arrayBatchingRejected := true },
        netIdx := (sendIndividually
          (fun j => if j = 0 then SendOutcome.fail (SendError.http 400)
            else SendOutcome.ok 7) [entryA, entryB] 1 none).netIdx,
        requests := Request.arr ([entryA, entryB].map fun e => e.payload) ::
          (sendIndividually
            (fun j => if j = 0 then SendOutcome.fail (SendError.http 400)
              else SendOutcome.ok 7) [entryA, entryB] 1 none).requests } :=
  ((C3_http_downgrade_inline_retry (initState Nat 200 5000 5 false)
      (fun j => if j = 0 then SendOutcome.fail (SendError.http 400)
        else SendOutcome.ok 7)
      0 [entryA, entryB] (SendError.http 400)).1
    (by decide) rfl rfl rfl).1 rfl

/-- C5: within one instance, events go out in enqueue order: every batch
is the contiguous FIFO prefix of at most `maxBatchSize` queue entries
(prefix ++ remainder reassembles the queue), and a batch whose send fails
is re-inserted at the front — when the requeue does not overflow capacity,
the buffer after the failing iteration is exactly the failed batch
followed by the strictly-newer entries, so the failed batch is retried (or
exhausted) before any newer entry is attempted. -/
theorem C5_fifo_order_and_front_requeue {α : Type} (st : SDKState α)
    (net : Nat → SendOutcome) (i fuel : Nat) :
    (st.eventBuffer.take st.maxBatchSize).length ≤ st.maxBatchSize ∧
    st.eventBuffer.take st.maxBatchSize ++ st.eventBuffer.drop st.maxBatchSize
      = st.eventBuffer ∧
    (∀ err, st.eventBuffer.isEmpty = false →
      (sendBatch { st with eventBuffer := st.eventBuffer.drop st.maxBatchSize }
          net i (st.eventBuffer.take st.maxBatchSize)).result
        = Except.error err →
      st.eventBuffer.length ≤ st.maxBufferedEvents →
      (drainLoop net (fuel + 1) st i).st.eventBuffer =
        st.eventBuffer.take st.maxBatchSize ++
          st.eventBuffer.drop st.maxBatchSize) := by
  refine ⟨?_, List.take_append_drop _ _, ?_⟩
  · rw [List.length_take]
    exact Nat.min_le_left _ _
  · intro err hne herr hcap
    rw [(drainLoop_fail_buffer net fuel i st err hne herr).1]
    have hz : st.eventBuffer.length - st.maxBufferedEvents = 0 := by omega
    rw [hz, List.drop_zero, List.take_append_drop]

/-- Witness for C5: three queued entries, batch size 2, a failing send —
the failed two-entry prefix batch is back at the front, ahead of the third
entry. -/
theorem C5_fifo_order_and_front_requeue_witness :
    (drainLoop netAlwaysFail 3
        { initState Nat 2 5000 5 false with eventBuffer := [entryA, entryB, entryC] }
        0).st.eventBuffer =
      [entryA, entryB, entryC].take 2 ++ [entryA, entryB, entryC].drop 2 :=
  (C5_fifo_order_and_front_requeue
    { initState Nat 2 5000 5 false with eventBuffer := [entryA, entryB, entryC] }
    netAlwaysFail 0 2).2.2 SendError.network rfl (by decide) (by decide)

/-- C6: capacity enforcement characterised, and shown to run on every
enqueue (incoming count 1, before the append) and again in the failed-flush
path right after the batch is re-inserted at the front: whenever the
adjusted length exceeds `maxBufferedEvents`, exactly the overflow count of
entries is dropped from the front (oldest first), each dropped entry's
future is rejected with the buffer-exceeded error, and the remaining,
strictly newer entries stay queued untouched; otherwise the trim is the
identity. -/
theorem C6_capacity_enforcement {α : Type} (st : SDKState α) (n : Nat)
    (p : α) (now : Nat) (net : Nat → SendOutcome) (i fuel : Nat) :
    ((st.maxBufferedEvents < st.eventBuffer.length + n →
      (trimBufferIfNeeded st n).1.eventBuffer =
        st.eventBuffer.drop (st.eventBuffer.length + n - st.maxBufferedEvents) ∧
      (trimBufferIfNeeded st n).2 =
        (st.eventBuffer.take (st.eventBuffer.length + n - st.maxBufferedEvents)).map
          (fun e => Settle.reject e.callbackId SdkError.bufferExceeded)) ∧
     (st.eventBuffer.length + n ≤ st.maxBufferedEvents →
      trimBufferIfNeeded st n = (st, []))) ∧
    ((enqueueEvent st p now).st.eventBuffer =
      (trimBufferIfNeeded st 1).1.eventBuffer ++
        [{ payload := p, callbackId := (trimBufferIfNeeded st 1).1.nextCallbackId,
           retries := 0, enqueueTime := now }] ∧
     (enqueueEvent st p now).settles = (trimBufferIfNeeded st 1).2) ∧
    (∀ err, st.eventBuffer.isEmpty = false →
      (sendBatch { st with eventBuffer := st.eventBuffer.drop st.maxBatchSize }
          net i (st.eventBuffer.take st.maxBatchSize)).result
        = Except.error err →
      (drainLoop net (fuel + 1) st i).st.eventBuffer =
        st.eventBuffer.drop (st.eventBuffer.length - st.maxBufferedEvents) ∧
      ∃ tl, (drainLoop net (fuel + 1) st i).settles =
        (st.eventBuffer.take (st.eventBuffer.length - st.maxBufferedEvents)).map
          (fun e => Settle.reject e.callbackId SdkError.bufferExceeded) ++ tl) := by
  refine ⟨⟨?_, ?_⟩,
    ⟨enqueueEvent_buffer st p now, enqueueEvent_settles st p now⟩, ?_⟩
  · intro _
    exact ⟨trimBufferIfNeeded_buffer st n, trimBufferIfNeeded_settles st n⟩
  · intro h
    exact trimBufferIfNeeded_noop st n h
  · intro err hne herr
    exact drainLoop_fail_buffer net fuel i st err hne herr

/-- Witness for C6: two queued entries against capacity 1 — the trim drops
and rejects exactly the oldest entry and keeps the newer one. -/
theorem C6_capacity_enforcement_witness :
    (trimBufferIfNeeded
        { initState Nat 200 1 5 false with eventBuffer := [entryA, entryB] }
        0).1.eventBuffer = [entryB] ∧
    (trimBufferIfNeeded
        { initState Nat 200 1 5 false with eventBuffer := [entryA, entryB] }
        0).2 = [Settle.reject 0 SdkError.bufferExceeded] := by
  have h := (C6_capacity_enforcement
    { initState Nat 200 1 5 false with eventBuffer := [entryA, entryB] }
    0 99 0 netAlwaysFail 0 0).1.1 (by decide)
  refine ⟨h.1.trans (by decide), h.2.trans (by decide)⟩

/-- C4: the array-batching downgrade flag is one-way and sticky: a flush
that starts with the flag set ends with it set and sends every request
single-shaped (never an array, whatever the batch sizes), an enqueue never
changes it, and no flush ever clears it (a flush that ends with the flag
unset must have started with it unset — so over any execution the flag
moves from unset to set at most once and never back). -/
theorem C4_sticky_downgrade {α : Type} (st : SDKState α)
    (net : Nat → SendOutcome) (i : Nat) (p : α) (now : Nat) :
    (st.arrayBatchingRejected = true →
      (flushEvents st net i).st.arrayBatchingRejected = true ∧
      ∀ r ∈ (flushEvents st net i).requests, r.isArr = false) ∧
    (enqueueEvent st p now).st.arrayBatchingRejected
      = st.arrayBatchingRejected ∧
    ((flushEvents st net i).st.arrayBatchingRejected = false →
      st.arrayBatchingRejected = false) := by
  refine ⟨fun h => flushEvents_downgraded st net i h, enqueueEvent_flag st p now, ?_⟩
  intro hafter
  by_contra hbefore
  replace hbefore : st.arrayBatchingRejected = true := by
    cases hflag : st.arrayBatchingRejected
    · exact absurd hflag hbefore
    · rfl
  rw [(flushEvents_downgraded st net i hbefore).1] at hafter
  simp at hafter

/-- Witness for C4: a downgraded two-entry instance flushes with two
single-object requests, no array shape, and the flag still set. -/
theorem C4_sticky_downgrade_witness :
    ((flushEvents
        { initState Nat 200 5000 5 false with
          arrayBatchingRejected := true
          eventBuffer :=
            [{ payload := 1, callbackId := 0, retries := 0, enqueueTime := 0 },
             { payload := 2, callbackId := 1, retries := 0, enqueueTime := 0 }] }
        (fun _ => SendOutcome.ok 7) 0).st.arrayBatchingRejected = true ∧
      ∀ r ∈ (flushEvents
        { initState Nat 200 5000 5 false with
          arrayBatchingRejected := true
          eventBuffer :=
            [{ payload := 1, callbackId := 0, retries := 0, enqueueTime := 0 },
             { payload := 2, callbackId := 1, retries := 0, enqueueTime := 0 }] }
        (fun _ => SendOutcome.ok 7) 0).requests, r.isArr = false) ∧
    (enqueueEvent (initState Nat 200 5000 5 false) 9 0).st.arrayBatchingRejected
      = false :=
  ⟨(C4_sticky_downgrade
      { initState Nat 200 5000 5 false with
        arrayBatchingRejected := true
        eventBuffer :=
          [{ payload := 1, callbackId := 0, retries := 0, enqueueTime := 0 },
           { payload := 2, callbackId := 1, retries := 0, enqueueTime := 0 }] }
      (fun _ => SendOutcome.ok 7) 0 9 0).1 rfl,
    (C4_sticky_downgrade (initState Nat 200 5000 5 false)
      (fun _ => SendOutcome.ok 7) 0 9 0).2.1⟩

end NSL
